import Mathlib

/-!
Shallow embedding of the Place Discovery & Enrichment Layer of the
repository (src/lib/googleMaps.ts and the location-search hook), together
with theorems settling the frozen claims about it.

Conventions of the embedding:
* JavaScript numbers holding pixel dimensions and price levels are `Nat`;
  coordinates, ratings and distances are `ℝ` (the trigonometric haversine
  code is not executable), except in the geocoding adapter where the
  fixed-precision formatting is modelled exactly over `ℚ`.
* A possibly-absent JS field is an `Option`; the JS `a || b` coalescing on
  strings treats `""` as absent and on numbers treats `0` as absent, which
  is modelled explicitly by the `jsOr*` helpers below.
* An `async` function that can reject is `Except String α`; the outcome of
  a provider call (which the code receives via a callback or an awaited
  promise) is passed to the embedded function as an explicit argument.
* The module-level `GOOGLE_MAPS_API_KEY` environment constant is threaded
  as an explicit `Option String` argument.
-/

namespace NewBuzo

/-- `{displayName?, uri?, photoUri?}` attribution pairs (types.ts). -/
structure PhotoAttribution where
  displayName : Option String := none
  uri : Option String := none
  photoUri : Option String := none
deriving DecidableEq, Repr

/-- Duck-typed photo descriptor: the union of the legacy fields
(`photo_reference`/`width`/`height`), the new-shape fields
(`name`/`widthPx`/`heightPx`/`authorAttributions`) and the detail-record
field `attributions`, every one optional, exactly as the parameter type of
`getBestRestaurantImage` in googleMaps.ts. -/
structure Photo where
  photo_reference : Option String := none
  name : Option String := none
  height : Option Nat := none
  width : Option Nat := none
  heightPx : Option Nat := none
  widthPx : Option Nat := none
  authorAttributions : Option (List PhotoAttribution) := none
  attributions : Option (List PhotoAttribution) := none
deriving DecidableEq, Repr

/-- JS `a || b || 0` on optional numeric fields: the first present,
nonzero value, else `0`. -/
def jsOrNat (a b : Option Nat) : Nat :=
  match a with
  | some x => if x = 0 then (match b with | some y => y | none => 0) else x
  | none => match b with | some y => y | none => 0

/-- JS `a || b` on optional string fields: `""` is falsy. -/
def jsOrStr (a b : Option String) : Option String :=
  match a with
  | some s => if s = "" then (match b with | some t => if t = "" then none else some t | none => none) else some s
  | none => match b with | some t => if t = "" then none else some t | none => none

/-- `photo.width || photo.widthPx || 0` (googleMaps.ts lines 487, 489). -/
def photoW (p : Photo) : Nat := jsOrNat p.width p.widthPx

/-- `photo.height || photo.heightPx || 0` (googleMaps.ts lines 488, 490). -/
def photoH (p : Photo) : Nat := jsOrNat p.height p.heightPx

/-- The loop body of `getBestRestaurantImage`'s selection scan
(googleMaps.ts lines 486-503): skip zero-dimension candidates; replace
current best when the aspect ratio `w/h` lies in `[1.2, 2.0]` (stated in
exact integer arithmetic: `6*h ≤ 5*w ∧ w ≤ 2*h`) and the pixel area
strictly exceeds the current best's. -/
def bestPhotoStep (best p : Photo) : Photo :=
  let cw := photoW p
  let ch := photoH p
  let bw := photoW best
  let bh := photoH best
  if cw = 0 ∨ ch = 0 then best
  else if 6 * ch ≤ 5 * cw ∧ cw ≤ 2 * ch ∧ cw * ch > bw * bh then p
  else best

/-- The selection scan of `getBestRestaurantImage`: `bestPhoto` starts at
`photos[0]` and the `for...of` loop runs over the whole array. -/
def bestRestaurantPhoto (photos : List Photo) : Option Photo :=
  match photos with
  | [] => none
  | p0 :: _ => some (photos.foldl bestPhotoStep p0)

/-- `getPlacePhotoUrl` (googleMaps.ts lines 546-573): no credential yields
the placeholder; a reference starting with `places/` uses the new
endpoint, otherwise the legacy one. Query-string assembly is modelled as
plain concatenation (all appended values here are numerals or the key). -/
def getPlacePhotoUrl (apiKey : Option String) (photoReference : String)
    (maxWidth : Nat := 800) (maxHeight : Nat := 600) : String :=
  match apiKey with
  | none => "/placeholder.svg"
  | some key =>
    if key = "" then "/placeholder.svg"
    else if photoReference.startsWith "places/" then
      "https://places.googleapis.com/v1/" ++ photoReference ++ "/media?maxWidthPx=" ++
        toString maxWidth ++ "&maxHeightPx=" ++ toString maxHeight ++ "&key=" ++ key
    else
      "https://maps.googleapis.com/maps/api/place/photo?photoreference=" ++ photoReference ++
        "&maxwidth=" ++ toString maxWidth ++ "&maxheight=" ++ toString maxHeight ++ "&key=" ++ key

/-- `getBestRestaurantImage` (googleMaps.ts lines 470-508). -/
def getBestRestaurantImage (apiKey : Option String) (photos : Option (List Photo)) : String :=
  match photos with
  | none => "/placeholder.svg"
  | some ps =>
    match bestRestaurantPhoto ps with
    | none => "/placeholder.svg"
    | some best =>
      match jsOrStr best.photo_reference best.name with
      | some ref => getPlacePhotoUrl apiKey ref 800 600
      | none => "/placeholder.svg"

/-- The fixed tag → label table of `mapCuisineType`
(googleMaps.ts lines 211-229). -/
def cuisineMap : List (String × String) :=
  [("restaurant", "Restaurant"),
   ("food", "Food"),
   ("meal_takeaway", "Takeaway"),
   ("meal_delivery", "Delivery"),
   ("cafe", "Cafe"),
   ("bar", "Bar"),
   ("bakery", "Bakery"),
   ("chinese_restaurant", "Chinese"),
   ("japanese_restaurant", "Japanese"),
   ("thai_restaurant", "Thai"),
   ("italian_restaurant", "Italian"),
   ("mexican_restaurant", "Mexican"),
   ("indian_restaurant", "Indian"),
   ("french_restaurant", "French"),
   ("american_restaurant", "American"),
   ("steakhouse", "Steakhouse")]

/-- `mapCuisineType` (googleMaps.ts lines 210-237): first input tag found
in the table wins; no match yields `"Restaurant"`. (Every label in the
table is a nonempty string, so JS truthiness of the lookup is just
membership.) -/
def mapCuisineType : List String → String
  | [] => "Restaurant"
  | t :: ts =>
    match cuisineMap.lookup t with
    | some label => label
    | none => mapCuisineType ts

/-- Standard two-argument arctangent, the semantics of JS `Math.atan2`
restricted to the quadrant case analysis (used by the haversine formula
with nonnegative arguments only). -/
noncomputable def atan2 (y x : ℝ) : ℝ :=
  if 0 < x then Real.arctan (y / x)
  else if x < 0 ∧ 0 ≤ y then Real.arctan (y / x) + Real.pi
  else if x < 0 ∧ y < 0 then Real.arctan (y / x) - Real.pi
  else if x = 0 ∧ 0 < y then Real.pi / 2
  else if x = 0 ∧ y < 0 then -(Real.pi / 2)
  else 0

/-- `calculateDistance` (googleMaps.ts lines 197-207): haversine distance
in kilometres with Earth radius 6371, over idealized real arithmetic. -/
noncomputable def calculateDistance (lat1 lng1 lat2 lng2 : ℝ) : ℝ :=
  let R : ℝ := 6371
  let dLat := (lat2 - lat1) * (Real.pi / 180)
  let dLng := (lng2 - lng1) * (Real.pi / 180)
  let a :=
    Real.sin (dLat / 2) * Real.sin (dLat / 2) +
    Real.cos (lat1 * (Real.pi / 180)) * Real.cos (lat2 * (Real.pi / 180)) *
    (Real.sin (dLng / 2) * Real.sin (dLng / 2))
  let c := 2 * atan2 (Real.sqrt a) (Real.sqrt (1 - a))
  R * c

/-- `UserLocation` (types.ts lines 891-895). -/
structure UserLocation where
  lat : ℝ
  lng : ℝ
  address : Option String := none

/-- `Restaurant`, the normalized internal place record
(types.ts lines 875-889). -/
structure Restaurant where
  id : String
  name : String
  rating : ℝ
  address : String
  coordLat : ℝ
  coordLng : ℝ
  cuisine : String
  priceLevel : Nat
  image : String
  distance : ℝ
  photoAttributions : List PhotoAttribution

/-- A place object of the new-shape `Place.searchNearby` /
`Place.searchByText` response, with the fields the adapter probes
(googleMaps.ts lines 267-302, 739-758). `Dg_displayName` stands for
`place.Dg && place.Dg.displayName` being a string, flattened; a missing
`Dg` or a non-string `displayName` is `none`. `location.lat()` /
`location.lng()` accessor results are `locationLat`/`locationLng`. -/
structure NewPlace where
  Dg_displayName : Option String := none
  displayName_text : Option String := none
  name : Option String := none
  title : Option String := none
  place_id : Option String := none
  id : Option String := none
  rating : Option ℝ := none
  formattedAddress : Option String := none
  vicinity : Option String := none
  locationLat : ℝ
  locationLng : ℝ
  types : Option (List String) := none
  priceLevel : Option Nat := none
  photos : Option (List Photo) := none

/-- A legacy `GooglePlaceResult` as delivered to the `nearbySearch` /
`textSearch` callbacks (googleMaps.ts lines 44-69). -/
structure GooglePlaceResult where
  place_id : String
  name : String
  vicinity : Option String := none
  formatted_address : Option String := none
  locationLat : ℝ
  locationLng : ℝ
  rating : Option ℝ := none
  price_level : Option Nat := none
  types : List String
  photos : Option (List Photo) := none

/-- Keep an optional string only when its trim is nonempty, the selection
condition of the robust name extraction (googleMaps.ts lines 274-281). -/
def pickTrimmed : Option String → Option String
  | some s => if s.trim = "" then none else some s
  | none => none

/-- The robust name extraction of the new-shape nearby mapper
(googleMaps.ts lines 272-282): first of `Dg.displayName`,
`displayName.text`, `name`, `title` whose trim is nonempty, else `""`. -/
def restaurantNameOf (p : NewPlace) : String :=
  match pickTrimmed p.Dg_displayName <|> pickTrimmed p.displayName_text <|>
        pickTrimmed p.name <|> pickTrimmed p.title with
  | some s => s
  | none => ""

/-- JS `a || dflt` on an optional numeric field (`0` is falsy). -/
def jsNumOr (a : Option Nat) (dflt : Nat) : Nat :=
  match a with
  | some n => if n = 0 then dflt else n
  | none => dflt

/-- JS `place.photos && place.photos[0] && place.photos[0].authorAttributions
? ... : []` (googleMaps.ts lines 301, 757). -/
def firstPhotoAttributions (photos : Option (List Photo)) : List PhotoAttribution :=
  match photos with
  | some (ph :: _) =>
    match ph.authorAttributions with
    | some attrs => attrs
    | none => []
  | _ => []

/-- The new-shape nearby mapper (googleMaps.ts lines 267-302). A JS
`undefined` id (both `place_id` and `id` absent) is modelled as `""`. -/
noncomputable def newNearbyRestaurant (apiKey : Option String) (location : UserLocation)
    (place : NewPlace) : Restaurant :=
  { id := (jsOrStr place.place_id place.id).getD ""
    name := if restaurantNameOf place = "" then "Unknown Restaurant" else restaurantNameOf place
    rating := place.rating.getD 0
    address := (jsOrStr place.formattedAddress place.vicinity).getD ""
    coordLat := place.locationLat
    coordLng := place.locationLng
    cuisine := mapCuisineType (place.types.getD [])
    priceLevel := jsNumOr place.priceLevel 2
    image := getBestRestaurantImage apiKey place.photos
    distance := calculateDistance location.lat location.lng place.locationLat place.locationLng
    photoAttributions := firstPhotoAttributions place.photos }

/-- The legacy nearby mapper (googleMaps.ts lines 322-341): note `name`
is copied verbatim from the provider result, with no fallback. -/
noncomputable def legacyNearbyRestaurant (apiKey : Option String) (location : UserLocation)
    (place : GooglePlaceResult) : Restaurant :=
  { id := place.place_id
    name := place.name
    rating := place.rating.getD 0
    address := place.vicinity.getD ""
    coordLat := place.locationLat
    coordLng := place.locationLng
    cuisine := mapCuisineType place.types
    priceLevel := jsNumOr place.price_level 2
    image := getBestRestaurantImage apiKey place.photos
    distance := calculateDistance location.lat location.lng place.locationLat place.locationLng
    photoAttributions := [] }

/-- The outcome of attempting the new-shape entry point: `none` when the
entry point is unavailable, `some (.error ())` when the call threw, and
`some (.ok places)` when it resolved (with `response.places || []`
already applied to yield the list). -/
abbrev NewApiOutcome := Option (Except Unit (List NewPlace))

/-- `searchNearbyRestaurants` (googleMaps.ts lines 240-348). `init` is the
outcome of `initializeGoogleMapsService()`; `newApi` the new-shape
attempt; `legacyStatus`/`legacyResults` what the legacy `nearbySearch`
callback receives. The legacy branch resolves only on status `"OK"` and
rejects on every other status, `ZERO_RESULTS` included. -/
noncomputable def searchNearbyRestaurants (apiKey : Option String)
    (init : Except Unit Unit) (location : UserLocation) (newApi : NewApiOutcome)
    (legacyStatus : String) (legacyResults : List GooglePlaceResult) :
    Except String (List Restaurant) :=
  match init with
  | .error _ => .error "Google Maps API failed to load"
  | .ok _ =>
    match newApi with
    | some (.ok places) => .ok (places.map (newNearbyRestaurant apiKey location))
    | _ =>
      if legacyStatus = "OK" then
        .ok (legacyResults.map (legacyNearbyRestaurant apiKey location))
      else
        .error ("Places API error: " ++ legacyStatus)

/-- The new-shape text-search mapper (googleMaps.ts lines 739-758):
`displayName?.text || name || 'Unknown Restaurant'`, no `vicinity`
fallback for the address, distance only when a location was supplied. -/
noncomputable def newTextRestaurant (apiKey : Option String) (location : Option UserLocation)
    (place : NewPlace) : Restaurant :=
  { id := (jsOrStr place.place_id place.id).getD ""
    name := (jsOrStr place.displayName_text place.name).getD "Unknown Restaurant"
    rating := place.rating.getD 0
    address := place.formattedAddress.getD ""
    coordLat := place.locationLat
    coordLng := place.locationLng
    cuisine := mapCuisineType (place.types.getD [])
    priceLevel := jsNumOr place.priceLevel 2
    image := getBestRestaurantImage apiKey place.photos
    distance :=
      match location with
      | some l => calculateDistance l.lat l.lng place.locationLat place.locationLng
      | none => 0
    photoAttributions := firstPhotoAttributions place.photos }

/-- The legacy text-search mapper (googleMaps.ts lines 784-803): again
`name` is copied verbatim with no fallback. -/
noncomputable def legacyTextRestaurant (apiKey : Option String) (location : Option UserLocation)
    (place : GooglePlaceResult) : Restaurant :=
  { id := place.place_id
    name := place.name
    rating := place.rating.getD 0
    address := place.formatted_address.getD ""
    coordLat := place.locationLat
    coordLng := place.locationLng
    cuisine := mapCuisineType place.types
    priceLevel := jsNumOr place.price_level 2
    image := getBestRestaurantImage apiKey place.photos
    distance :=
      match location with
      | some l => calculateDistance l.lat l.lng place.locationLat place.locationLng
      | none => 0
    photoAttributions := [] }

/-- `searchPlacesByText` (googleMaps.ts lines 711-812). Unlike the nearby
legacy branch, the text legacy branch maps `ZERO_RESULTS` to `[]`. -/
noncomputable def searchPlacesByText (apiKey : Option String)
    (init : Except Unit Unit) (location : Option UserLocation) (newApi : NewApiOutcome)
    (legacyStatus : String) (legacyResults : List GooglePlaceResult) :
    Except String (List Restaurant) :=
  match init with
  | .error _ => .error "Google Maps API failed to load"
  | .ok _ =>
    match newApi with
    | some (.ok places) => .ok (places.map (newTextRestaurant apiKey location))
    | _ =>
      if legacyStatus = "OK" then
        .ok (legacyResults.map (legacyTextRestaurant apiKey location))
      else if legacyStatus = "ZERO_RESULTS" then
        .ok []
      else
        .error ("Text Search API error: " ++ legacyStatus)

/-- `RestaurantDetails` (types.ts lines 897-920), with the photo list in
the shared duck-typed `Photo` shape. -/
structure RestaurantDetails where
  place_id : String
  name : String
  formatted_address : String
  formatted_phone_number : Option String := none
  website : Option String := none
  rating : ℝ
  photos : Option (List Photo) := none
  opening_hours_open_now : Option Bool := none
  geometryLat : ℝ
  geometryLng : ℝ

/-- `enhanceRestaurantWithPhotos` (googleMaps.ts lines 511-532). The
awaited `getPlaceDetails(restaurant.id)` outcome is the explicit
`fetchDetails` argument; a non-placeholder image short-circuits before the
fetch, a rejected fetch is caught and the input returned unchanged. -/
def enhanceRestaurantWithPhotos (apiKey : Option String) (restaurant : Restaurant)
    (fetchDetails : Except Unit RestaurantDetails) : Restaurant :=
  if restaurant.image ≠ "/placeholder.svg" then restaurant
  else
    match fetchDetails with
    | .error _ => restaurant
    | .ok details =>
      match details.photos with
      | some ps =>
        if ps ≠ [] then { restaurant with image := getBestRestaurantImage apiKey (some ps) }
        else restaurant
      | none => restaurant

/-- JS `Number.prototype.toFixed(4)` over exact rationals: sign, then the
absolute value rounded to the nearest multiple of `1/10000` (ties toward
the larger candidate, as ECMA-262 specifies for the decimal value) and
printed with exactly four fractional digits. Exact for inputs whose
double representation introduces no crossing of a rounding boundary, in
particular for all four-decimal-exact coordinates. -/
def toFixed4 (q : ℚ) : String :=
  let n : ℤ := round (|q| * 10000)
  let i := n / 10000
  let f := n % 10000
  let fs := f.toNat.repr
  let pad := String.mk (List.replicate (4 - fs.length) '0')
  (if q < 0 then "-" else "") ++ i.toNat.repr ++ "." ++ pad ++ fs

/-- A legacy `GoogleGeocoderResult` (googleMaps.ts lines 71-73). -/
structure GoogleGeocoderResult where
  formatted_address : String
deriving DecidableEq, Repr

/-- `reverseGeocode` (googleMaps.ts lines 648-665). `init` is the awaited
`initializeGoogleMapsService()` outcome — it throws when the SDK failed to
load, and that exception propagates out of `reverseGeocode`; only after a
successful initialization does the geocoder callback logic run, which
always resolves: the formatted address on status `"OK"` with a nonempty
result list, the fixed-precision fallback string otherwise. -/
def reverseGeocode (init : Except Unit Unit) (lat lng : ℚ)
    (results : List GoogleGeocoderResult) (status : String) : Except String String :=
  match init with
  | .error _ => .error "Google Maps API failed to load"
  | .ok _ =>
    if status = "OK" ∧ results ≠ [] then
      .ok (results.headD ⟨""⟩).formatted_address
    else
      .ok (toFixed4 lat ++ ", " ++ toFixed4 lng)

/-- `LocationSearchResult` (googleMaps.ts lines 668-677). -/
structure LocationSearchResult where
  place_id : String
  name : String
  formatted_address : String
  locationLat : ℚ
  locationLng : ℚ
  types : List String
deriving DecidableEq, Repr

/-- A geocoder forward-search result with the fields probed by
`searchLocationsByText` (googleMaps.ts lines 690-698);
`address_components_first_long_name` stands for
`result.address_components[0]?.long_name`. -/
structure GeocoderAddressResult where
  place_id : String
  address_components_first_long_name : Option String := none
  formatted_address : String
  locationLat : ℚ
  locationLng : ℚ
  types : Option (List String) := none
deriving DecidableEq, Repr

/-- The per-result mapper of `searchLocationsByText`
(googleMaps.ts lines 690-699). -/
def locationSearchResultOf (r : GeocoderAddressResult) : LocationSearchResult :=
  { place_id := r.place_id
    name := (jsOrStr r.address_components_first_long_name (some r.formatted_address)).getD ""
    formatted_address := r.formatted_address
    locationLat := r.locationLat
    locationLng := r.locationLng
    types := r.types.getD [] }

/-- `searchLocationsByText` (googleMaps.ts lines 679-708): status `"OK"`
with a non-null result array maps the results, `"ZERO_RESULTS"` resolves
empty, anything else rejects. -/
def searchLocationsByText (init : Except Unit Unit)
    (results : Option (List GeocoderAddressResult)) (status : String) :
    Except String (List LocationSearchResult) :=
  match init with
  | .error _ => .error "Google Maps API failed to load"
  | .ok _ =>
    if status = "OK" ∧ results ≠ none then
      .ok ((results.getD []).map locationSearchResultOf)
    else if status = "ZERO_RESULTS" then
      .ok []
    else
      .error ("Geocoding API error: " ++ status)

/-- JS `String.prototype.trim`: strip leading and trailing whitespace. -/
def jsTrim (s : String) : String :=
  ⟨((s.data.dropWhile Char.isWhitespace).reverse.dropWhile Char.isWhitespace).reverse⟩

/-- The `searchLocations` operation of the `useLocationSearch` hook
(the unnamed hooks source, lines 174-191): a blank query (`!query.trim()`)
sets the results to `[]` and returns before any provider call; otherwise
one call to `searchLocationsByText` is issued, whose rejection is caught
and mapped to empty results. The returned pair is (results state, number
of provider calls issued). -/
def searchLocationsHook (query : String)
    (provider : String → Except String (List LocationSearchResult)) :
    List LocationSearchResult × Nat :=
  if jsTrim query = "" then ([], 0)
  else
    match provider query with
    | .ok locs => (locs, 1)
    | .error _ => ([], 1)

/-! ### Theorems settling the claims -/

/-- The `a`-expression of the haversine formula is symmetric in the two
coordinates. -/
lemma haversineA_symm (lat1 lng1 lat2 lng2 : ℝ) :
    Real.sin ((lat2 - lat1) * (Real.pi / 180) / 2) * Real.sin ((lat2 - lat1) * (Real.pi / 180) / 2) +
      Real.cos (lat1 * (Real.pi / 180)) * Real.cos (lat2 * (Real.pi / 180)) *
      (Real.sin ((lng2 - lng1) * (Real.pi / 180) / 2) * Real.sin ((lng2 - lng1) * (Real.pi / 180) / 2)) =
    Real.sin ((lat1 - lat2) * (Real.pi / 180) / 2) * Real.sin ((lat1 - lat2) * (Real.pi / 180) / 2) +
      Real.cos (lat2 * (Real.pi / 180)) * Real.cos (lat1 * (Real.pi / 180)) *
      (Real.sin ((lng1 - lng2) * (Real.pi / 180) / 2) * Real.sin ((lng1 - lng2) * (Real.pi / 180) / 2)) := by
  have e1 : Real.sin ((lat1 - lat2) * (Real.pi / 180) / 2) =
      -Real.sin ((lat2 - lat1) * (Real.pi / 180) / 2) := by
    rw [show (lat1 - lat2) * (Real.pi / 180) / 2 = -((lat2 - lat1) * (Real.pi / 180) / 2) by ring,
      Real.sin_neg]
  have e2 : Real.sin ((lng1 - lng2) * (Real.pi / 180) / 2) =
      -Real.sin ((lng2 - lng1) * (Real.pi / 180) / 2) := by
    rw [show (lng1 - lng2) * (Real.pi / 180) / 2 = -((lng2 - lng1) * (Real.pi / 180) / 2) by ring,
      Real.sin_neg]
  rw [e1, e2]; ring

/-- `atan2 0 1 = 0`. -/
lemma atan2_zero_one : atan2 0 1 = 0 := by
  unfold atan2
  rw [if_pos (by norm_num : (0 : ℝ) < 1)]
  norm_num

/-- C9: the haversine `calculateDistance` is symmetric in its two
coordinate pairs, and the distance from a coordinate to itself is zero. -/
theorem calculateDistance_symm_and_self_zero (lat1 lng1 lat2 lng2 : ℝ) :
    calculateDistance lat1 lng1 lat2 lng2 = calculateDistance lat2 lng2 lat1 lng1 ∧
    calculateDistance lat1 lng1 lat1 lng1 = 0 := by
  constructor
  · simp only [calculateDistance]
    rw [haversineA_symm lat1 lng1 lat2 lng2]
  · simp only [calculateDistance, sub_self, zero_mul, zero_div, Real.sin_zero, mul_zero,
      add_zero, Real.sqrt_zero, sub_zero, Real.sqrt_one, atan2_zero_one]

/-- C4 counterexample: the cuisine classification is order-sensitive, not
specificity-first — a generic tag that precedes a specific one wins, so
`["restaurant", "thai_restaurant"]` maps to `"Restaurant"`, not
`"Thai"`, while the reversed sequence maps to `"Thai"`. -/
theorem mapCuisineType_order_counterexample :
    mapCuisineType ["restaurant", "thai_restaurant"] = "Restaurant" ∧
    mapCuisineType ["thai_restaurant", "restaurant"] = "Thai" ∧
    ("Restaurant" : String) ≠ "Thai" := by
  refine ⟨rfl, rfl, by decide⟩

/-- C4 (amended): `mapCuisineType` returns the label of the first input
tag present in the fixed table — the input order of the tags decides, so
a specific cuisine label results exactly when the specific tag precedes
every matching generic tag — and returns `"Restaurant"` when no tag
matches. -/
theorem mapCuisineType_first_match (ts : List String) :
    mapCuisineType ts = (ts.filterMap (fun t => cuisineMap.lookup t)).headD "Restaurant" := by
  induction ts with
  | nil => rfl
  | cons t ts ih =>
    simp only [mapCuisineType, List.filterMap_cons]
    cases h : cuisineMap.lookup t with
    | some l => simp [h]
    | none => simp [h, ih]

/-- The landscape condition of the photo scan, in exact arithmetic:
`1.2 ≤ w/h ∧ w/h ≤ 2.0`. -/
def landscapePhoto (p : Photo) : Prop :=
  6 * photoH p ≤ 5 * photoW p ∧ photoW p ≤ 2 * photoH p

instance (p : Photo) : Decidable (landscapePhoto p) := by
  unfold landscapePhoto; infer_instance

/-- If the fold of the selection scan ends on a portrait photo, the
running best was never replaced, and every landscape candidate in the
scanned list has area at most the starting best's. -/
lemma bestPhotoFold_portrait_aux (l : List Photo) (best : Photo)
    (hport : 5 * photoW (l.foldl bestPhotoStep best) < 6 * photoH (l.foldl bestPhotoStep best)) :
    l.foldl bestPhotoStep best = best ∧
    ∀ p ∈ l, landscapePhoto p → photoW p * photoH p ≤ photoW best * photoH best := by
  induction l generalizing best with
  | nil => exact ⟨rfl, by simp⟩
  | cons p l ih =>
    simp only [List.foldl_cons] at hport ⊢
    by_cases h0 : photoW p = 0 ∨ photoH p = 0
    · have hstep0 : bestPhotoStep best p = best := by
        simp only [bestPhotoStep]
        rw [if_pos h0]
      rw [hstep0] at hport ⊢
      obtain ⟨heq, hall⟩ := ih best hport
      refine ⟨heq, ?_⟩
      intro q hq hlq
      rcases List.mem_cons.mp hq with rfl | hq
      · rcases h0 with h | h <;> simp [h]
      · exact hall q hq hlq
    · by_cases hrep : 6 * photoH p ≤ 5 * photoW p ∧ photoW p ≤ 2 * photoH p ∧
          photoW p * photoH p > photoW best * photoH best
      · have hstep : bestPhotoStep best p = p := by
          simp only [bestPhotoStep]
          rw [if_neg h0, if_pos hrep]
        rw [hstep] at hport
        obtain ⟨heq, _⟩ := ih p hport
        rw [heq] at hport
        exact absurd hrep.1 (by omega)
      · have hstep : bestPhotoStep best p = best := by
          simp only [bestPhotoStep]
          rw [if_neg h0, if_neg hrep]
        rw [hstep] at hport ⊢
        obtain ⟨heq, hall⟩ := ih best hport
        refine ⟨heq, ?_⟩
        intro q hq hlq
        rcases List.mem_cons.mp hq with rfl | hq
        · by_contra harea
          exact hrep ⟨hlq.1, hlq.2, by omega⟩
        · exact hall q hq hlq

/-- C3 (amended): the selection scan never returns a portrait-oriented
candidate when a landscape candidate of *strictly larger* pixel area
exists in the sequence; a landscape candidate whose area merely equals
the first candidate's does not replace it (the area comparison is
strict, so ties keep the earlier/first candidate). -/
theorem bestPhoto_portrait_no_strictly_larger_landscape (photos : List Photo) (b : Photo)
    (hb : bestRestaurantPhoto photos = some b)
    (hport : 5 * photoW b < 6 * photoH b) :
    ∀ p ∈ photos, landscapePhoto p → photoW p * photoH p ≤ photoW b * photoH b := by
  match photos with
  | [] => simp [bestRestaurantPhoto] at hb
  | p0 :: rest =>
    simp only [bestRestaurantPhoto, Option.some.injEq] at hb
    obtain ⟨heq, hall⟩ := bestPhotoFold_portrait_aux (p0 :: rest) p0 (by rw [hb]; exact hport)
    intro p hp hlp
    calc photoW p * photoH p ≤ photoW p0 * photoH p0 := hall p hp hlp
    _ = photoW b * photoH b := by rw [← hb, heq]

/-- C3 witness: a concrete scan — portrait first candidate of area
300000 kept; the landscape candidate of area 120000 is bounded by it. -/
theorem bestPhoto_portrait_witness :
    bestRestaurantPhoto
        [{ width := some 500, height := some 600 }, { width := some 400, height := some 300 }] =
      some { width := some 500, height := some 600 } ∧
    photoW { width := some 400, height := some 300 } * photoH { width := some 400, height := some 300 } ≤
      photoW { width := some 500, height := some 600 } * photoH { width := some 500, height := some 600 } :=
  ⟨by decide,
   bestPhoto_portrait_no_strictly_larger_landscape
     [{ width := some 500, height := some 600 }, { width := some 400, height := some 300 }]
     { width := some 500, height := some 600 } (by decide) (by decide)
     { width := some 400, height := some 300 } (by decide) (by decide)⟩

/-- C3 counterexample: with a portrait first candidate (500×600) and a
landscape candidate (600×500) of exactly *equal* pixel area, the scan
keeps the portrait first candidate, so "equal or larger area" is too
strong: the claim as stated fails at this input. -/
theorem bestPhoto_equal_area_counterexample :
    bestRestaurantPhoto
        [{ width := some 500, height := some 600 }, { width := some 600, height := some 500 }] =
      some { width := some 500, height := some 600 } ∧
    5 * photoW ({ width := some 500, height := some 600 } : Photo) <
      6 * photoH ({ width := some 500, height := some 600 } : Photo) ∧
    landscapePhoto { width := some 600, height := some 500 } ∧
    photoW ({ width := some 600, height := some 500 } : Photo) *
        photoH ({ width := some 600, height := some 500 } : Photo) ≥
      photoW ({ width := some 500, height := some 600 } : Photo) *
        photoH ({ width := some 500, height := some 600 } : Photo) := by
  refine ⟨by decide, by decide, by decide, by decide⟩

/-- C1: zero-results behaviour of `searchNearbyRestaurants`. On the
new-shape path a zero-results response (`response.places` empty) yields
the empty sequence, but on the legacy fallback path the callback status
`ZERO_RESULTS` is not special-cased: the status test `=== OK` fails and
the promise is rejected with `Places API error: ZERO_RESULTS`, although
an absence of results is not an error. The sibling legacy branches
(`searchPlacesByText`, `searchLocationsByText`) do map `ZERO_RESULTS`
to the empty sequence, as the third conjunct records for
`searchPlacesByText`. -/
theorem searchNearby_zero_results_behavior :
    searchNearbyRestaurants none (.ok ()) ⟨0, 0, none⟩ (some (.ok [])) "" [] = .ok [] ∧
    searchNearbyRestaurants none (.ok ()) ⟨0, 0, none⟩ none "ZERO_RESULTS" [] =
      .error "Places API error: ZERO_RESULTS" ∧
    searchPlacesByText none (.ok ()) none none "ZERO_RESULTS" [] = .ok [] := by
  refine ⟨rfl, rfl, rfl⟩

/-- C2: with initialization successful and the new-shape entry point
unavailable or throwing, `searchNearbyRestaurants` retries via the legacy
entry point: a legacy status of `OK` yields exactly the legacy-derived,
fully normalized result set, and any non-`OK` legacy status surfaces a
query-failure error naming the status — only then does the caller see an
error. -/
theorem searchNearby_legacy_fallback (apiKey : Option String) (location : UserLocation)
    (newApi : NewApiOutcome) (hfail : ∀ places, newApi ≠ some (.ok places)) :
    (∀ legacyResults,
        searchNearbyRestaurants apiKey (.ok ()) location newApi "OK" legacyResults =
          .ok (legacyResults.map (legacyNearbyRestaurant apiKey location))) ∧
    (∀ status legacyResults, status ≠ "OK" →
        searchNearbyRestaurants apiKey (.ok ()) location newApi status legacyResults =
          .error ("Places API error: " ++ status)) := by
  have hm : ∀ (s : String) (rs : List GooglePlaceResult),
      searchNearbyRestaurants apiKey (.ok ()) location newApi s rs =
        if s = "OK" then .ok (rs.map (legacyNearbyRestaurant apiKey location))
        else .error ("Places API error: " ++ s) := by
    intro s rs
    cases newApi with
    | none => rfl
    | some e =>
      cases e with
      | error u => rfl
      | ok places => exact absurd rfl (hfail places)
  exact ⟨fun rs => by rw [hm]; simp,
         fun st rs hne => by rw [hm]; simp [hne]⟩

/-- C2 witness: the fallback theorem applied with a throwing new-shape
call, once with a succeeding legacy call and once with a failing one. -/
theorem searchNearby_legacy_fallback_witness :
    searchNearbyRestaurants none (.ok ()) ⟨0, 0, none⟩ (some (.error ())) "OK" [] = .ok [] ∧
    searchNearbyRestaurants none (.ok ()) ⟨0, 0, none⟩ (some (.error ())) "UNKNOWN_ERROR" [] =
      .error "Places API error: UNKNOWN_ERROR" := by
  have h := searchNearby_legacy_fallback none ⟨0, 0, none⟩ (some (.error ()))
    (fun places => by simp)
  exact ⟨h.1 [], h.2 "UNKNOWN_ERROR" [] (by decide)⟩

/-- C7 counterexample: on the legacy-shape nearby path the provider name
is copied verbatim with no sentinel fallback, so a legacy result whose
`name` is the empty string produces an entity with an empty name. -/
theorem legacy_empty_name_counterexample :
    ((searchNearbyRestaurants none (.ok ()) ⟨0, 0, none⟩ none "OK"
        [{ place_id := "p1", name := "", vicinity := none, formatted_address := none,
           locationLat := 0, locationLng := 0, rating := none, price_level := none,
           types := ["restaurant"], photos := none }]).toOption.getD []).map
      Restaurant.name = [""] := by
  rfl

/-- C7 (amended): only the new-shape mappers (nearby and text search)
guarantee a nonempty name, assigning the `"Unknown Restaurant"` sentinel
when no probed field yields a usable name; the legacy-shape mappers copy
the provider's `name` field verbatim, so a legacy entity's name is empty
exactly when the provider's was. -/
theorem entity_name_policy (apiKey : Option String) (loc : UserLocation)
    (optLoc : Option UserLocation) (p : NewPlace) (q : GooglePlaceResult) :
    (newNearbyRestaurant apiKey loc p).name ≠ "" ∧
    (newTextRestaurant apiKey optLoc p).name ≠ "" ∧
    (legacyNearbyRestaurant apiKey loc q).name = q.name ∧
    (legacyTextRestaurant apiKey optLoc q).name = q.name := by
  refine ⟨?_, ?_, rfl, rfl⟩
  · show (if restaurantNameOf p = "" then "Unknown Restaurant" else restaurantNameOf p) ≠ ""
    by_cases h : restaurantNameOf p = "" <;> simp [h]
  · show (jsOrStr p.displayName_text p.name).getD "Unknown Restaurant" ≠ ""
    rcases p.displayName_text with _ | a <;> rcases p.name with _ | b <;>
      simp only [jsOrStr, Option.getD_none, Option.getD_some] <;>
      (try split_ifs) <;> simp_all

/-- C5 counterexample: on a successful enrichment the entity's `image` is
replaced, but its `photoAttributions` field is *not* — it keeps the input
value `[]` even though the selected photo carries attribution data. -/
theorem enhance_attributions_counterexample :
    enhanceRestaurantWithPhotos (some "KEY")
        { id := "id1", name := "Resto", rating := 0, address := "", coordLat := 0, coordLng := 0,
          cuisine := "Restaurant", priceLevel := 2, image := "/placeholder.svg", distance := 0,
          photoAttributions := [] }
        (.ok { place_id := "id1", name := "Resto", formatted_address := "", rating := 0,
               photos := some [{ photo_reference := some "ref1", width := some 800,
                                 height := some 600,
                                 attributions := some [{ displayName := some "Alice" }] }],
               geometryLat := 0, geometryLng := 0 }) =
      { id := "id1", name := "Resto", rating := 0, address := "", coordLat := 0, coordLng := 0,
        cuisine := "Restaurant", priceLevel := 2,
        image := getPlacePhotoUrl (some "KEY") "ref1" 800 600, distance := 0,
        photoAttributions := [] } ∧
    getPlacePhotoUrl (some "KEY") "ref1" 800 600 ≠ "/placeholder.svg" ∧
    ({ photo_reference := some "ref1", width := some 800, height := some 600,
       attributions := some [{ displayName := some "Alice" }] } : Photo).attributions =
      some [{ displayName := some "Alice" }] := by
  refine ⟨rfl, by decide, rfl⟩

/-- C5 (amended): phase-2 enrichment of an entity whose `imageUrl` is the
placeholder sentinel and whose detail fetch yields at least one photo
descriptor replaces *only* the entity's `imageUrl` (via the Photo
Selection Heuristic); `photoAttributions` and every other field are left
unchanged. Entities whose `imageUrl` is already non-placeholder are
returned unchanged without a detail fetch (the result does not depend on
the fetch outcome). -/
theorem enhance_image_only_policy (apiKey : Option String) (r : Restaurant) :
    (r.image ≠ "/placeholder.svg" → ∀ fetch, enhanceRestaurantWithPhotos apiKey r fetch = r) ∧
    (r.image = "/placeholder.svg" → ∀ d ps, d.photos = some ps → ps ≠ [] →
        enhanceRestaurantWithPhotos apiKey r (.ok d) =
          { r with image := getBestRestaurantImage apiKey (some ps) }) := by
  constructor
  · intro h fetch
    unfold enhanceRestaurantWithPhotos
    rw [if_pos h]
  · intro h d ps hps hne
    unfold enhanceRestaurantWithPhotos
    rw [if_neg (not_not_intro h)]
    dsimp only
    rw [hps]
    dsimp only
    rw [if_pos hne]

/-- C5 witness: the policy theorem applied to a concrete non-placeholder
entity (returned untouched, fetch ignored) and to a concrete placeholder
entity with a one-photo detail record (image replaced). -/
theorem enhance_image_only_policy_witness :
    enhanceRestaurantWithPhotos none
        { id := "a", name := "A", rating := 0, address := "", coordLat := 0, coordLng := 0,
          cuisine := "Cafe", priceLevel := 1, image := "http://img", distance := 0,
          photoAttributions := [] } (.error ()) =
      { id := "a", name := "A", rating := 0, address := "", coordLat := 0, coordLng := 0,
        cuisine := "Cafe", priceLevel := 1, image := "http://img", distance := 0,
        photoAttributions := [] } ∧
    enhanceRestaurantWithPhotos (some "KEY")
        { id := "b", name := "B", rating := 0, address := "", coordLat := 0, coordLng := 0,
          cuisine := "Cafe", priceLevel := 1, image := "/placeholder.svg", distance := 0,
          photoAttributions := [] }
        (.ok { place_id := "b", name := "B", formatted_address := "", rating := 0,
               photos := some [{ photo_reference := some "r2", width := some 640,
                                 height := some 480 }],
               geometryLat := 0, geometryLng := 0 }) =
      { id := "b", name := "B", rating := 0, address := "", coordLat := 0, coordLng := 0,
        cuisine := "Cafe", priceLevel := 1,
        image := getBestRestaurantImage (some "KEY")
          (some [{ photo_reference := some "r2", width := some 640, height := some 480 }]),
        distance := 0, photoAttributions := [] } :=
  ⟨(enhance_image_only_policy none
      { id := "a", name := "A", rating := 0, address := "", coordLat := 0, coordLng := 0,
        cuisine := "Cafe", priceLevel := 1, image := "http://img", distance := 0,
        photoAttributions := [] }).1 (by decide) (.error ()),
   (enhance_image_only_policy (some "KEY")
      { id := "b", name := "B", rating := 0, address := "", coordLat := 0, coordLng := 0,
        cuisine := "Cafe", priceLevel := 1, image := "/placeholder.svg", distance := 0,
        photoAttributions := [] }).2 rfl
      { place_id := "b", name := "B", formatted_address := "", rating := 0,
        photos := some [{ photo_reference := some "r2", width := some 640, height := some 480 }],
        geometryLat := 0, geometryLng := 0 }
      [{ photo_reference := some "r2", width := some 640, height := some 480 }] rfl (by decide)⟩

/-- C10: `enhanceRestaurantWithPhotos` is a frame for every field except
`image`: in every outcome (already-enriched pass-through, successful
enrichment, detail record without photos, and caught fetch failure) the
returned record agrees with the input on `id`, `name`, `rating`,
`address`, both coordinates, `cuisine`, `priceLevel`, `distance` and
`photoAttributions`. -/
theorem enhance_frame (apiKey : Option String) (r : Restaurant)
    (fetch : Except Unit RestaurantDetails) :
    (enhanceRestaurantWithPhotos apiKey r fetch).id = r.id ∧
    (enhanceRestaurantWithPhotos apiKey r fetch).name = r.name ∧
    (enhanceRestaurantWithPhotos apiKey r fetch).rating = r.rating ∧
    (enhanceRestaurantWithPhotos apiKey r fetch).address = r.address ∧
    (enhanceRestaurantWithPhotos apiKey r fetch).coordLat = r.coordLat ∧
    (enhanceRestaurantWithPhotos apiKey r fetch).coordLng = r.coordLng ∧
    (enhanceRestaurantWithPhotos apiKey r fetch).cuisine = r.cuisine ∧
    (enhanceRestaurantWithPhotos apiKey r fetch).priceLevel = r.priceLevel ∧
    (enhanceRestaurantWithPhotos apiKey r fetch).distance = r.distance ∧
    (enhanceRestaurantWithPhotos apiKey r fetch).photoAttributions = r.photoAttributions := by
  have h : enhanceRestaurantWithPhotos apiKey r fetch = r ∨
      ∃ img, enhanceRestaurantWithPhotos apiKey r fetch = { r with image := img } := by
    unfold enhanceRestaurantWithPhotos
    split
    · exact Or.inl rfl
    · cases fetch with
      | error e => exact Or.inl rfl
      | ok d =>
        dsimp only
        cases hps : d.photos with
        | none => exact Or.inl rfl
        | some ps =>
          dsimp only
          split
          · exact Or.inr ⟨_, rfl⟩
          · exact Or.inl rfl
  rcases h with h | ⟨img, h⟩ <;> rw [h] <;>
    exact ⟨rfl, rfl, rfl, rfl, rfl, rfl, rfl, rfl, rfl, rfl⟩

/-- C6 counterexample: `reverseGeocode` awaits the session initialization
first, and that initialization throws when the SDK failed to load, so
under that provider failure the call *does* reject — it is not
unobservable to the caller, refuting "never rejects under any provider
failure" even at the spec's own concrete coordinate. -/
theorem reverseGeocode_init_failure_counterexample :
    reverseGeocode (.error ()) (436532 / 10000 : ℚ) (-(793832 / 10000) : ℚ) [] "ERROR" =
      .error "Google Maps API failed to load" := rfl

/-- C6 (amended): once the session initialization has succeeded,
`reverseGeocode` always resolves: for every coordinate and every geocoder
outcome it returns some string, and whenever the status is not `OK` or
the result list is empty it returns exactly the fixed-precision fallback
`"{lat:.4f}, {lng:.4f}"`; only a failed initialization makes the call
reject. -/
theorem reverseGeocode_resolves_after_init (lat lng : ℚ)
    (results : List GoogleGeocoderResult) (status : String) :
    (∃ s, reverseGeocode (.ok ()) lat lng results status = .ok s) ∧
    (status ≠ "OK" ∨ results = [] →
        reverseGeocode (.ok ()) lat lng results status =
          .ok (toFixed4 lat ++ ", " ++ toFixed4 lng)) := by
  unfold reverseGeocode
  by_cases h : status = "OK" ∧ results ≠ []
  · refine ⟨⟨_, by rw [if_pos h]⟩, ?_⟩
    intro hc
    rcases hc with hc | hc
    · exact absurd h.1 hc
    · exact absurd hc h.2
  · exact ⟨⟨_, by rw [if_neg h]⟩, fun _ => by rw [if_neg h]⟩

/-- C6 witness: the resolution theorem at the spec's concrete coordinate
(43.65320, -79.38320) under a failing geocoder status, evaluating the
fallback to exactly `"43.6532, -79.3832"`. -/
theorem reverseGeocode_fallback_witness :
    reverseGeocode (.ok ()) (436532 / 10000 : ℚ) (-(793832 / 10000) : ℚ) [] "ERROR" =
      .ok "43.6532, -79.3832" := by
  have h := (reverseGeocode_resolves_after_init (436532 / 10000 : ℚ) (-(793832 / 10000) : ℚ)
    [] "ERROR").2 (Or.inr rfl)
  rw [h]
  have e1 : (|(436532 / 10000 : ℚ)| * 10000) = ((436532 : ℤ) : ℚ) := by
    rw [abs_of_nonneg (by norm_num : (0 : ℚ) ≤ 436532 / 10000)]
    norm_num
  have e2 : (|(-(793832 / 10000) : ℚ)| * 10000) = ((793832 : ℤ) : ℚ) := by
    rw [abs_neg, abs_of_nonneg (by norm_num : (0 : ℚ) ≤ 793832 / 10000)]
    norm_num
  have h1 : toFixed4 (436532 / 10000 : ℚ) = "43.6532" := by
    simp only [toFixed4, e1, round_intCast]
    rw [if_neg (by norm_num : ¬((436532 / 10000 : ℚ) < 0))]
    decide
  have h2 : toFixed4 (-(793832 / 10000) : ℚ) = "-79.3832" := by
    simp only [toFixed4, e2, round_intCast]
    rw [if_pos (by norm_num : (-(793832 / 10000) : ℚ) < 0)]
    decide
  rw [h1, h2]
  rfl

/-- C8: the hook-level `searchLocations` operation applied to a query
whose trim is empty (the empty or all-whitespace string) yields the empty
result sequence and issues zero calls to the geocoding provider. -/
theorem searchLocations_blank_query (query : String)
    (provider : String → Except String (List LocationSearchResult))
    (h : jsTrim query = "") :
    searchLocationsHook query provider = ([], 0) := by
  unfold searchLocationsHook
  rw [if_pos h]

/-- C8 witness: the blank-query theorem at the all-whitespace query
`"   "`, with a provider that would reject if it were ever called. -/
theorem searchLocations_blank_query_witness :
    searchLocationsHook "   " (fun _ => .error "provider must not be called") = ([], 0) :=
  searchLocations_blank_query "   " (fun _ => .error "provider must not be called") (by decide)

end NewBuzo
